import Mathlib

/-!
Shallow embedding of the backtester core (portfolio accounting, execution
tie-breaks, tick rounding, risk sizing, signal queue) and proofs about it.
Prices and cash are modelled as rationals, quantities as integers, and the
Python `datetime` is reduced to the (day, time-of-day) pair the embedded
code actually inspects.
-/

namespace Backtester

/-- Order side enumeration (models.OrderSide). -/
inductive OrderSide where
  | buy
  | sell
  deriving DecidableEq

/-- Timestamp reduced to what the embedded code reads: `day` models
`datetime.date()`, `tod` the time of day. -/
structure DateTime where
  day : ℤ
  tod : ℕ
  deriving DecidableEq

/-- Price bar (models.Bar) after construction.  The Python dataclass stores
`timestamp, symbol, price` plus optional OHLCV; `open` is renamed `open_`
because it is a Lean keyword. -/
structure Bar where
  timestamp : DateTime
  symbol : String
  price : ℚ
  open_ : ℚ
  high : ℚ
  low : ℚ
  close : ℚ
  volume : ℚ
  deriving DecidableEq

/-- Constructor modelling `Bar.__post_init__` (models.py lines 53-72):
missing OHLCV fields default from `price`, then `high` and `low` are
auto-corrected (sequentially, the corrected `high` feeding the `low` test). -/
def mkBar (timestamp : DateTime) (symbol : String) (price : ℚ)
    (o h l c v : Option ℚ) : Bar :=
  let o1 := o.getD price
  let h1 := h.getD price
  let l1 := l.getD price
  let c1 := c.getD price
  let v1 := v.getD 0
  let h2 := if h1 < max (max o1 c1) l1 then max (max (max o1 c1) l1) h1 else h1
  let l2 := if l1 > min (min o1 c1) h2 then min (min (min o1 c1) h2) l1 else l1
  { timestamp := timestamp, symbol := symbol, price := price,
    open_ := o1, high := h2, low := l2, close := c1, volume := v1 }

/-- Python's builtin `round` to an integer: round-half-to-even. -/
def pyRound (q : ℚ) : ℤ :=
  let f := ⌊q⌋
  let r := q - f
  if r < 1/2 then f
  else if r > 1/2 then f + 1
  else if 2 ∣ f then f else f + 1

/-- utils.round_to_tick: `round(price / tick_size) * tick_size`. -/
def round_to_tick (price : ℚ) (tick_size : ℚ) : ℚ :=
  pyRound (price / tick_size) * tick_size

/-- Modelled from the spec: rounding to the nearest tick multiple with ties
broken away from zero, as section 4.1 of the spec prescribes.  Used to
compare the source's rounding against the specified one. -/
def roundHalfAwayToTick (price : ℚ) (tick_size : ℚ) : ℚ :=
  let q := price / tick_size
  (if 0 ≤ q then ⌊q + 1/2⌋ else -⌊-q + 1/2⌋) * tick_size

/-- Position direction as passed to the TP/SL helpers ("LONG"/"SHORT"
strings in execution.py, modelled as a closed enumeration). -/
inductive PositionSide where
  | long
  | short
  deriving DecidableEq

/-- Result tag of resolve_tp_sl_tie ("SL" / "TP" / "NONE"). -/
inductive TieResult where
  | sl
  | tp
  | noneHit
  deriving DecidableEq

/-- execution.check_stop_loss_hit: the Python `(is_hit, execution_price)`
pair is collapsed into an `Option` (the price is `None` exactly when the
flag is false). -/
def check_stop_loss_hit (position_side : PositionSide) (stop_loss : ℚ)
    (bar : Bar) : Option ℚ :=
  match position_side with
  | .long => if bar.low ≤ stop_loss then some (min stop_loss bar.open_) else none
  | .short => if bar.high ≥ stop_loss then some (max stop_loss bar.open_) else none

/-- execution.check_take_profit_hit, same Option collapsing. -/
def check_take_profit_hit (position_side : PositionSide) (take_profit : ℚ)
    (bar : Bar) : Option ℚ :=
  match position_side with
  | .long => if bar.high ≥ take_profit then some (max take_profit bar.open_) else none
  | .short => if bar.low ≤ take_profit then some (min take_profit bar.open_) else none

/-- execution.resolve_tp_sl_tie (execution.py lines 307-351). -/
def resolve_tp_sl_tie (position_side : PositionSide) (stop_loss take_profit : ℚ)
    (bar : Bar) : TieResult × ℚ :=
  let slRes := check_stop_loss_hit position_side stop_loss bar
  let tpRes := check_take_profit_hit position_side take_profit bar
  match slRes, tpRes with
  | some slPrice, some tpPrice =>
    (match position_side with
     | .long => if bar.close > bar.open_ then (.tp, tpPrice) else (.sl, slPrice)
     | .short => if bar.close < bar.open_ then (.tp, tpPrice) else (.sl, slPrice))
  | some slPrice, none => (.sl, slPrice)
  | none, some tpPrice => (.tp, tpPrice)
  | none, none => (.noneHit, 0)

/-- Current position in a symbol (models.Position).  Fields the embedded
code never reads are kept with their dataclass defaults. -/
structure Position where
  symbol : String
  quantity : ℤ
  avg_price : ℚ
  realized_pnl : ℚ := 0
  unrealized_pnl : ℚ := 0
  total_commission : ℚ := 0
  opened_at : Option DateTime := none
  last_updated : Option DateTime := none
  deriving DecidableEq

/-- utils.safe_divide. -/
def safe_divide (numerator denominator default : ℚ) : ℚ :=
  if denominator = 0 then default else numerator / denominator

/-- Python `int()` applied to a number: truncation toward zero. -/
def pyInt (q : ℚ) : ℤ :=
  if 0 ≤ q then ⌊q⌋ else ⌈q⌉

/-- Risk manager configuration (risk_manager.RiskManager constructor
arguments; `sizing_method` stays a string as in the source). -/
structure RiskManager where
  max_position_pct : ℚ
  max_portfolio_leverage : ℚ
  max_positions : Option ℕ
  min_position_size : ℤ
  sizing_method : String
  vol_lookback : ℕ
  target_vol : ℚ

/-- risk_manager.RiskManager.size_by_fraction (lines 103-123). -/
def RiskManager.size_by_fraction (rm : RiskManager)
    (price portfolio_value : ℚ) : ℤ :=
  if price ≤ 0 ∨ portfolio_value ≤ 0 then rm.min_position_size
  else pyInt (portfolio_value * rm.max_position_pct / price)

/-- risk_manager.RiskManager.size_by_volatility (lines 125-157). -/
def RiskManager.size_by_volatility (rm : RiskManager)
    (price portfolio_value volatility : ℚ) : ℤ :=
  if price ≤ 0 ∨ portfolio_value ≤ 0 ∨ volatility ≤ 0 then rm.min_position_size
  else
    let target_dollar_vol := rm.target_vol * portfolio_value
    let position_dollar_vol := price * volatility
    let quantity := safe_divide target_dollar_vol position_dollar_vol
      (rm.min_position_size : ℚ)
    let max_quantity := portfolio_value * rm.max_position_pct / price
    pyInt (min quantity max_quantity)

/-- risk_manager.RiskManager.calculate_position_size (lines 52-101).  An
explicit positive signal size wins; otherwise the configured sizing method
is used (unknown methods fall back to fraction); finally
`size = max(size, min_position_size)`. -/
def RiskManager.calculate_position_size (rm : RiskManager)
    (price portfolio_value : ℚ) (signal_size : Option ℤ)
    (volatility : Option ℚ) : ℤ :=
  let bySizing : ℤ :=
    if rm.sizing_method = "fraction" then rm.size_by_fraction price portfolio_value
    else if rm.sizing_method = "volatility" then
      match volatility with
      | none => rm.size_by_fraction price portfolio_value
      | some v => rm.size_by_volatility price portfolio_value v
    else if rm.sizing_method = "fixed" then rm.min_position_size
    else rm.size_by_fraction price portfolio_value
  let size : ℤ :=
    match signal_size with
    | some s => if 0 < s then s else bySizing
    | none => bySizing
  max size rm.min_position_size

/-- risk_manager.RiskManager.check_position_limit (lines 159-208); only the
boolean verdict is modelled, the human-readable reason strings are elided. -/
def RiskManager.check_position_limit (rm : RiskManager) (symbol : String)
    (proposed_quantity : ℤ) (price portfolio_value : ℚ)
    (current_positions : List (String × Position)) : Bool :=
  let maxPositionsReject : Bool :=
    match rm.max_positions with
    | none => false
    | some mp =>
      let current_count :=
        (current_positions.filter (fun sp => sp.2.quantity ≠ 0)).length
      let addingNew : Bool :=
        match current_positions.lookup symbol with
        | none => true
        | some pos => pos.quantity = 0
      addingNew && decide (mp ≤ current_count)
  if maxPositionsReject then false
  else if (|proposed_quantity| : ℚ) * price > portfolio_value * rm.max_position_pct
  then false
  else
    let total_exposure :=
      (current_positions.map (fun sp => |(sp.2.quantity : ℚ) * price|)).sum
    let new_exposure0 := total_exposure + |(proposed_quantity : ℚ) * price|
    let new_exposure :=
      match current_positions.lookup symbol with
      | none => new_exposure0
      | some pos => new_exposure0 - |(pos.quantity : ℚ) * price|
    let leverage := safe_divide new_exposure portfolio_value 0
    decide (leverage ≤ rm.max_portfolio_leverage)

/-- risk_manager.RiskManager.adjust_size_for_limits (lines 242-290). -/
def RiskManager.adjust_size_for_limits (rm : RiskManager) (symbol : String)
    (proposed_quantity : ℤ) (price portfolio_value : ℚ)
    (current_positions : List (String × Position)) : ℤ :=
  if proposed_quantity ≤ 0 then 0
  else if rm.check_position_limit symbol proposed_quantity price portfolio_value
      current_positions then proposed_quantity
  else
    let max_quantity := pyInt (portfolio_value * rm.max_position_pct / price)
    let current_exposure :=
      ((current_positions.filter (fun sp => sp.2.symbol ≠ symbol)).map
        (fun sp => |(sp.2.quantity : ℚ) * price|)).sum
    let available_exposure :=
      portfolio_value * rm.max_portfolio_leverage - current_exposure
    let max_quantity_leverage := pyInt (available_exposure / price)
    let adjusted_quantity := min (min max_quantity max_quantity_leverage)
      proposed_quantity
    max adjusted_quantity 0

/-- Trading signal as queued by the signal manager; only the fields the
queue logic inspects are kept (`sid` stands for the signal's identity). -/
structure Signal where
  timestamp : ℤ
  symbol : String
  side : OrderSide
  sid : ℕ
  deriving DecidableEq

/-- signal_manager.SignalManager.get_signals_for_timestamp (lines 85-106):
pop from the front of the deque while the head's timestamp is ≤ the target,
stop at the first later signal.  Returns (drained signals, remaining queue). -/
def get_signals_for_timestamp (queue : List Signal) (timestamp : ℤ) :
    List Signal × List Signal :=
  match queue with
  | [] => ([], [])
  | s :: rest =>
    if s.timestamp ≤ timestamp then
      let r := get_signals_for_timestamp rest timestamp
      (s :: r.1, r.2)
    else ([], s :: rest)

/-- Execution fill record (models.Fill); bookkeeping-only fields
(slippage, execution_price, metadata) are elided, and the `realized_pnl`
write-back performed by `apply_fill` is modelled as a return value. -/
structure Fill where
  fill_id : String
  order_id : String
  timestamp : DateTime
  symbol : String
  side : OrderSide
  quantity : ℤ
  price : ℚ
  commission : ℚ
  deriving DecidableEq

/-- models.Fill.gross_value. -/
def Fill.gross_value (f : Fill) : ℚ := f.quantity * f.price

/-- models.Fill.net_value: gross value plus commission. -/
def Fill.net_value (f : Fill) : ℚ := f.gross_value + f.commission

/-- utils.calculate_pnl. -/
def calculate_pnl (entry_price exit_price : ℚ) (quantity : ℤ) : ℚ :=
  (exit_price - entry_price) * quantity

/-- models.Position.update_unrealized_pnl. -/
def Position.update_unrealized_pnl (pos : Position) (current_price : ℚ) :
    Position :=
  if pos.quantity ≠ 0 then
    { pos with unrealized_pnl := (current_price - pos.avg_price) * pos.quantity }
  else pos

/-- Portfolio state at a point in time (models.PortfolioSnapshot). -/
structure PortfolioSnapshot where
  timestamp : DateTime
  cash : ℚ
  positions : List (String × Position)
  total_value : ℚ
  realized_pnl : ℚ
  unrealized_pnl : ℚ
  daily_pnl : ℚ
  daily_return : ℚ
  total_commission : ℚ
  num_trades : ℕ
  starting_cash : ℚ
  previous_day_value : ℚ
  deriving DecidableEq

/-- Portfolio ledger state (portfolio.Portfolio attributes).  Python dicts
are modelled as insertion-ordered association lists. -/
structure Portfolio where
  initial_cash : ℚ
  cash : ℚ
  track_daily_pnl : Bool
  square_off_eod : Bool
  positions : List (String × Position)
  realized_pnl : ℚ
  unrealized_pnl : ℚ
  total_commission : ℚ
  num_trades : ℕ
  current_day : Option ℤ
  daily_pnl : ℚ
  daily_starting_value : ℚ
  previous_day_value : ℚ
  daily_pnl_history : List (ℤ × ℚ)
  daily_return_history : List (ℤ × ℚ)
  snapshots : List PortfolioSnapshot
  current_prices : List (String × ℚ)

/-- portfolio.Portfolio.__init__. -/
def Portfolio.init (initial_cash : ℚ)
    (track_daily_pnl square_off_eod : Bool) : Portfolio :=
  { initial_cash := initial_cash
    cash := initial_cash
    track_daily_pnl := track_daily_pnl
    square_off_eod := square_off_eod
    positions := []
    realized_pnl := 0
    unrealized_pnl := 0
    total_commission := 0
    num_trades := 0
    current_day := none
    daily_pnl := 0
    daily_starting_value := initial_cash
    previous_day_value := initial_cash
    daily_pnl_history := []
    daily_return_history := []
    snapshots := []
    current_prices := [] }

/-- Assignment into a Python dict modelled on association lists: replace
the value under an existing key, else append a fresh entry. -/
def updateAssoc (m : List (String × ℚ)) (key : String) (v : ℚ) :
    List (String × ℚ) :=
  if (m.lookup key).isSome then
    m.map (fun kv => if kv.1 = key then (key, v) else kv)
  else m ++ [(key, v)]

/-- Same dict-assignment operation for the positions map. -/
def updatePositions (m : List (String × Position)) (key : String)
    (pos : Position) : List (String × Position) :=
  if (m.lookup key).isSome then
    m.map (fun kv => if kv.1 = key then (key, pos) else kv)
  else m ++ [(key, pos)]

/-- portfolio.Portfolio.get_total_value: cash plus unrealized P&L. -/
def Portfolio.get_total_value (p : Portfolio) : ℚ :=
  p.cash + p.unrealized_pnl

/-- portfolio.Portfolio._square_off_all_positions (lines 316-358): close
every non-zero position at the last cached mark (falling back to its
average price), posting realized P&L and cash directly with no commission
and no fill record.  Returns the mutated portfolio together with the total
realized P&L it posted. -/
def Portfolio.square_off_all_positions (p : Portfolio) (_timestamp : DateTime) :
    Portfolio × ℚ :=
  if p.positions.isEmpty then (p, 0)
  else
    let folded := p.positions.foldl
      (fun (acc : List (String × Position) × ℚ × ℚ) sp =>
        let sym := sp.1
        let pos := sp.2
        if pos.quantity ≠ 0 then
          let close_price := (p.current_prices.lookup sym).getD pos.avg_price
          let realized := calculate_pnl pos.avg_price close_price pos.quantity
          let cashDelta :=
            if 0 < pos.quantity then acc.2.1 + (|pos.quantity| : ℚ) * close_price
            else acc.2.1 - (|pos.quantity| : ℚ) * close_price
          (acc.1 ++ [(sym, { pos with quantity := 0, avg_price := 0 })],
           cashDelta, acc.2.2 + realized)
        else (acc.1 ++ [sp], acc.2))
      ([], 0, 0)
    ({ p with positions := folded.1
              cash := p.cash + folded.2.1
              realized_pnl := p.realized_pnl + folded.2.2
              daily_pnl := p.daily_pnl + folded.2.2 },
     folded.2.2)

/-- portfolio.Portfolio._check_new_day (lines 275-314).  On the first fill
it records the day and the starting value; on a date change it freezes the
previous day's P&L and return, optionally squares off (when
`square_off_eod`), then resets the day bookkeeping to the end-of-day value
computed before the square-off.  The second component is the realized P&L
posted by the square-off, 0 otherwise. -/
def Portfolio.check_new_day (p : Portfolio) (timestamp : DateTime) :
    Portfolio × ℚ :=
  let current_date := timestamp.day
  match p.current_day with
  | none =>
    ({ p with current_day := some current_date
              daily_starting_value := p.get_total_value }, 0)
  | some cd =>
    if current_date = cd then (p, 0)
    else
      let end_of_day_value := p.get_total_value
      let daily_return :=
        if 0 < p.daily_starting_value then p.daily_pnl / p.daily_starting_value
        else 0
      let p1 := { p with
        daily_pnl_history := p.daily_pnl_history ++ [(cd, p.daily_pnl)]
        daily_return_history := p.daily_return_history ++ [(cd, daily_return)] }
      let sq := if p.square_off_eod then p1.square_off_all_positions timestamp
                else (p1, 0)
      ({ sq.1 with current_day := some current_date
                   previous_day_value := end_of_day_value
                   daily_starting_value := end_of_day_value
                   daily_pnl := 0 }, sq.2)

/-- portfolio.Portfolio._update_position (lines 151-193). -/
def Position.update_position (position : Position) (fill : Fill) : Position :=
  let old_quantity : ℤ := position.quantity
  let new_quantity : ℤ :=
    match fill.side with
    | .buy => old_quantity + fill.quantity
    | .sell => old_quantity - fill.quantity
  let pos1 :=
    if new_quantity = 0 then
      { position with quantity := 0, avg_price := 0 }
    else if (0 < old_quantity ∧ 0 < new_quantity) ∨
            (old_quantity < 0 ∧ new_quantity < 0) then
      let old_value := (|old_quantity| : ℚ) * position.avg_price
      let new_value := (fill.quantity : ℚ) * fill.price
      let total_quantity := (|new_quantity| : ℚ)
      { position with avg_price := (old_value + new_value) / total_quantity
                      quantity := new_quantity }
    else if |new_quantity| < |old_quantity| then
      { position with quantity := new_quantity }
    else
      { position with quantity := new_quantity
                      avg_price := fill.price
                      opened_at := some fill.timestamp }
  { pos1 with last_updated := some fill.timestamp
              total_commission := pos1.total_commission + fill.commission }

/-- First half of portfolio.Portfolio.apply_fill (lines 63-92): refresh the
price cache, run the day check, and ensure a position row exists for the
fill's symbol.  Second component is the square-off P&L the day check posted. -/
def Portfolio.pre_fill_state (p : Portfolio) (fill : Fill)
    (current_price : Option ℚ) : Portfolio × ℚ :=
  let cp := current_price.getD fill.price
  let p1 := { p with current_prices := updateAssoc p.current_prices fill.symbol cp }
  let dc := if p1.track_daily_pnl then p1.check_new_day fill.timestamp else (p1, 0)
  let p2 := dc.1
  let p3 :=
    if (p2.positions.lookup fill.symbol).isSome then p2
    else { p2 with positions := p2.positions ++
      [(fill.symbol,
        { symbol := fill.symbol, quantity := 0, avg_price := 0,
          opened_at := some fill.timestamp,
          last_updated := some fill.timestamp })] }
  (p3, dc.2)

/-- Second half of portfolio.Portfolio.apply_fill (lines 94-149): compute
the realized P&L of the closing portion, update the position, move cash by
the fill's net value, and bump the accumulators.  Returns the new
portfolio, the realized P&L written back into the fill, and the square-off
P&L posted by the day check. -/
def Portfolio.apply_fill (p : Portfolio) (fill : Fill)
    (current_price : Option ℚ) : Portfolio × ℚ × ℚ :=
  let pre := p.pre_fill_state fill current_price
  let p1 := pre.1
  let position := (p1.positions.lookup fill.symbol).getD
    { symbol := fill.symbol, quantity := 0, avg_price := 0 }
  let fill_realized_pnl :=
    if position.quantity ≠ 0 then
      if (0 < position.quantity ∧ fill.side = OrderSide.sell) ∨
         (position.quantity < 0 ∧ fill.side = OrderSide.buy) then
        let close_quantity := min |fill.quantity| |position.quantity|
        calculate_pnl position.avg_price fill.price
          (if 0 < position.quantity then close_quantity else -close_quantity)
      else 0
    else 0
  let newpos := position.update_position fill
  let p2 := { p1 with positions := updatePositions p1.positions fill.symbol newpos }
  let p3 :=
    match fill.side with
    | .buy => { p2 with cash := p2.cash - fill.net_value }
    | .sell => { p2 with cash := p2.cash + fill.net_value }
  let p4 := { p3 with realized_pnl := p3.realized_pnl + fill_realized_pnl
                      total_commission := p3.total_commission + fill.commission
                      num_trades := p3.num_trades + 1 }
  let p5 :=
    if p4.track_daily_pnl then
      { p4 with daily_pnl := p4.daily_pnl + (fill_realized_pnl - fill.commission) }
    else p4
  (p5, fill_realized_pnl, pre.2)

/-- portfolio.Portfolio.update_from_bar (lines 213-230): cache the bar's
close, refresh that position's unrealized P&L, and recompute the total
unrealized P&L over all non-flat positions. -/
def Portfolio.update_from_bar (p : Portfolio) (bar : Bar) : Portfolio :=
  let p1 := { p with current_prices := updateAssoc p.current_prices bar.symbol bar.close }
  let p2 :=
    match p1.positions.lookup bar.symbol with
    | none => p1
    | some pos =>
      if pos.quantity ≠ 0 then
        let marked := pos.update_unrealized_pnl bar.close
        { p1 with positions := updatePositions p1.positions bar.symbol marked }
      else p1
  { p2 with unrealized_pnl :=
      ((p2.positions.filter (fun sp => sp.2.quantity ≠ 0)).map
        (fun sp => sp.2.unrealized_pnl)).sum }

/-- portfolio.Portfolio.create_snapshot (lines 232-273). -/
def Portfolio.create_snapshot (p : Portfolio) (timestamp : DateTime) :
    Portfolio × PortfolioSnapshot :=
  let total_value := p.cash + p.unrealized_pnl
  let daily_return :=
    if 0 < p.previous_day_value then
      (total_value - p.previous_day_value) / p.previous_day_value
    else 0
  let snapshot : PortfolioSnapshot :=
    { timestamp := timestamp
      cash := p.cash
      positions := p.positions
      total_value := total_value
      realized_pnl := p.realized_pnl
      unrealized_pnl := p.unrealized_pnl
      daily_pnl := p.daily_pnl
      daily_return := daily_return
      total_commission := p.total_commission
      num_trades := p.num_trades
      starting_cash := p.initial_cash
      previous_day_value := p.previous_day_value }
  ({ p with snapshots := p.snapshots ++ [snapshot] }, snapshot)

/-- One step of the portfolio's public interface, used to state whole-run
invariants: apply a fill, mark to market from a bar, or take a snapshot. -/
inductive PortfolioEvent where
  | fill (f : Fill) (current_price : Option ℚ)
  | bar (b : Bar)
  | snapshot (ts : DateTime)

/-- Run a list of portfolio events left to right. -/
def Portfolio.run (p : Portfolio) : List PortfolioEvent → Portfolio
  | [] => p
  | e :: es =>
    match e with
    | .fill f cp => ((p.apply_fill f cp).1).run es
    | .bar b => (p.update_from_bar b).run es
    | .snapshot ts => ((p.create_snapshot ts).1).run es

/-- Sum of the realized P&L written into the fills applied along a run
(the values `apply_fill` writes back into each Fill record). -/
def Portfolio.fillsRealized (p : Portfolio) : List PortfolioEvent → ℚ
  | [] => 0
  | .fill f cp :: es =>
    (p.apply_fill f cp).2.1 + ((p.apply_fill f cp).1).fillsRealized es
  | .bar b :: es => (p.update_from_bar b).fillsRealized es
  | .snapshot ts :: es => ((p.create_snapshot ts).1).fillsRealized es

/-- Sum of the realized P&L posted directly by EOD square-offs along a run
(these postings have no fill record). -/
def Portfolio.squareOffPosted (p : Portfolio) : List PortfolioEvent → ℚ
  | [] => 0
  | .fill f cp :: es =>
    (p.apply_fill f cp).2.2 + ((p.apply_fill f cp).1).squareOffPosted es
  | .bar b :: es => (p.update_from_bar b).squareOffPosted es
  | .snapshot ts :: es => ((p.create_snapshot ts).1).squareOffPosted es

/-- The spec's realized-P&L formula for a fill, evaluated against the
position it is applied to: a closing portion of `min(|fill.qty|, |pos.qty|)`
signed with the position's sign realizes `(fill.price − avg_entry) ×
signed_close_qty`; anything else realizes 0. -/
def realizedSpec (position : Position) (fill : Fill) : ℚ :=
  let opposing := (0 < position.quantity ∧ fill.side = OrderSide.sell) ∨
                  (position.quantity < 0 ∧ fill.side = OrderSide.buy)
  if position.quantity ≠ 0 ∧ opposing then
    let close_qty := min |fill.quantity| |position.quantity|
    let signed_close_qty := position.quantity.sign * close_qty
    (fill.price - position.avg_price) * signed_close_qty
  else 0

/-- C9: for every Bar built from any combination of supplied or omitted
OHLCV fields, after `__post_init__` normalization
`low ≤ min(open, close) ≤ max(open, close) ≤ high` holds, and when only
`price` is supplied, open = high = low = close = price and volume = 0. -/
theorem c9_bar_ohlc_invariant :
    (∀ (ts : DateTime) (sym : String) (price : ℚ) (o h l c v : Option ℚ),
      (mkBar ts sym price o h l c v).low ≤
          min (mkBar ts sym price o h l c v).open_ (mkBar ts sym price o h l c v).close ∧
        min (mkBar ts sym price o h l c v).open_ (mkBar ts sym price o h l c v).close ≤
          max (mkBar ts sym price o h l c v).open_ (mkBar ts sym price o h l c v).close ∧
        max (mkBar ts sym price o h l c v).open_ (mkBar ts sym price o h l c v).close ≤
          (mkBar ts sym price o h l c v).high) ∧
    (∀ (ts : DateTime) (sym : String) (price : ℚ),
      mkBar ts sym price none none none none none =
        { timestamp := ts, symbol := sym, price := price, open_ := price,
          high := price, low := price, close := price, volume := 0 }) := by
  constructor
  · intro ts sym price o h l c v
    dsimp only [mkBar]
    split_ifs with hh hl hl <;>
      refine ⟨?_, min_le_max, ?_⟩ <;>
      simp_all only [not_lt, gt_iff_lt, le_min_iff, min_le_iff, le_max_iff,
        max_le_iff, le_refl, true_or, or_true, and_self, not_le]
  · intro ts sym price
    simp [mkBar]

/-- C3: utils.round_to_tick resolves the exact tie 2.5 with tick 1.0 to the
even multiple 2 (Python banker's rounding), while the spec's
round-half-away-from-zero requires 3. -/
theorem c3_tick_rounding_evaluation :
    round_to_tick (5/2) 1 = 2 ∧ roundHalfAwayToTick (5/2) 1 = 3 ∧
      ((2 : ℚ) ≠ 3) := by
  refine ⟨?_, ?_, by norm_num⟩ <;>
    norm_num [round_to_tick, roundHalfAwayToTick, pyRound]

/-- C10: adjust_size_for_limits never increases a positive proposed
quantity and never returns a negative one, for any configuration, price,
portfolio value and positions map. -/
theorem c10_adjust_size_bounds (rm : RiskManager) (symbol : String)
    (proposed_quantity : ℤ) (price portfolio_value : ℚ)
    (current_positions : List (String × Position))
    (hq : 0 < proposed_quantity) (_hp : 0 < price) :
    0 ≤ rm.adjust_size_for_limits symbol proposed_quantity price
        portfolio_value current_positions ∧
      rm.adjust_size_for_limits symbol proposed_quantity price
        portfolio_value current_positions ≤ proposed_quantity := by
  unfold RiskManager.adjust_size_for_limits
  split_ifs with h1 h2
  · exact ⟨le_refl 0, hq.le⟩
  · exact ⟨hq.le, le_refl _⟩
  · exact ⟨le_max_right _ _, max_le (min_le_right _ _) hq.le⟩

/-- Sample risk configuration with the constructor's default values. -/
def rmDefault : RiskManager :=
  { max_position_pct := 1/5, max_portfolio_leverage := 1,
    max_positions := none, min_position_size := 1,
    sizing_method := "fraction", vol_lookback := 20, target_vol := 3/20 }

/-- Witness for c10_adjust_size_bounds at a concrete input. -/
theorem c10_adjust_size_bounds_witness :
    (0 < (5 : ℤ)) ∧ (0 < (10 : ℚ)) ∧
      (0 ≤ rmDefault.adjust_size_for_limits "S" 5 10 100 [] ∧
        rmDefault.adjust_size_for_limits "S" 5 10 100 [] ≤ 5) :=
  ⟨by norm_num, by norm_num,
    c10_adjust_size_bounds rmDefault "S" 5 10 100 [] (by norm_num) (by norm_num)⟩

/-- Queue holding two signals inserted out of timestamp order. -/
def queueUnsorted : List Signal :=
  [{ timestamp := 10, symbol := "S", side := OrderSide.buy, sid := 0 },
   { timestamp := 1, symbol := "S", side := OrderSide.buy, sid := 1 }]

/-- C4 counterexample: on a queue inserted out of timestamp order,
get_signals_for_timestamp 5 returns nothing and leaves the queue intact,
even though the queued signal with timestamp 1 ≤ 5 should have been
returned and removed according to the claim. -/
theorem c4_unsorted_queue_counterexample :
    get_signals_for_timestamp queueUnsorted 5 = ([], queueUnsorted) ∧
      ({ timestamp := 1, symbol := "S", side := OrderSide.buy, sid := 1 } : Signal)
        ∈ queueUnsorted ∧
      ((1 : ℤ) ≤ 5) := by
  refine ⟨by rfl, by simp [queueUnsorted], by norm_num⟩

/-- C4 amended: provided the queue is in nondecreasing timestamp order,
get_signals_for_timestamp t returns exactly the queued signals with
timestamp ≤ t and leaves exactly those with timestamp > t, both in queue
order (so signals with equal timestamps stay in insertion order). -/
theorem c4_sorted_queue_drain (queue : List Signal) (timestamp : ℤ)
    (hsorted : queue.Pairwise (fun a b => a.timestamp ≤ b.timestamp)) :
    get_signals_for_timestamp queue timestamp =
      (queue.filter (fun s => decide (s.timestamp ≤ timestamp)),
       queue.filter (fun s => decide (¬ s.timestamp ≤ timestamp))) := by
  induction queue with
  | nil => rfl
  | cons s rest ih =>
    rw [List.pairwise_cons] at hsorted
    obtain ⟨hall, hrest⟩ := hsorted
    by_cases hs : s.timestamp ≤ timestamp
    · rw [get_signals_for_timestamp, if_pos hs, ih hrest]
      simp [List.filter_cons, hs]
    · have hallgt : ∀ x ∈ rest, ¬ x.timestamp ≤ timestamp := fun x hx hle =>
        hs (le_trans (hall x hx) hle)
      rw [get_signals_for_timestamp, if_neg hs, Prod.mk.injEq]
      constructor
      · symm
        rw [List.filter_eq_nil_iff]
        intro a ha
        simp only [decide_eq_true_eq]
        rcases List.mem_cons.mp ha with h | h
        · exact h ▸ hs
        · exact hallgt a h
      · symm
        rw [List.filter_eq_self]
        intro a ha
        simp only [decide_eq_true_eq]
        rcases List.mem_cons.mp ha with h | h
        · exact h ▸ hs
        · exact hallgt a h

/-- Queue holding two signals in nondecreasing timestamp order, the first
two sharing a timestamp to exercise insertion-order stability. -/
def queueSorted : List Signal :=
  [{ timestamp := 1, symbol := "S", side := OrderSide.buy, sid := 0 },
   { timestamp := 1, symbol := "S", side := OrderSide.sell, sid := 1 },
   { timestamp := 3, symbol := "S", side := OrderSide.buy, sid := 2 }]

/-- Witness for c4_sorted_queue_drain at a concrete sorted queue. -/
theorem c4_sorted_queue_drain_witness :
    queueSorted.Pairwise (fun a b => a.timestamp ≤ b.timestamp) ∧
      get_signals_for_timestamp queueSorted 2 =
        (queueSorted.filter (fun s => decide (s.timestamp ≤ 2)),
         queueSorted.filter (fun s => decide (¬ s.timestamp ≤ 2))) :=
  ⟨by decide, c4_sorted_queue_drain queueSorted 2 (by decide)⟩

/-- Doji bar (close = open) whose range touches both a short position's
stop (105) and target (95). -/
def barDoji : Bar :=
  mkBar ⟨0, 0⟩ "S" 100 (some 100) (some 106) (some 94) (some 100) none

/-- C5 counterexample: on a bar with close = open touching both levels of a
short position, resolve_tp_sl_tie returns SL, not the TP the claim's
"close ≤ open gives TP for shorts" reading requires. -/
theorem c5_short_doji_counterexample :
    check_stop_loss_hit PositionSide.short 105 barDoji = some 105 ∧
      check_take_profit_hit PositionSide.short 95 barDoji = some 95 ∧
      (resolve_tp_sl_tie PositionSide.short 105 95 barDoji).1 = TieResult.sl ∧
      TieResult.sl ≠ TieResult.tp := by
  refine ⟨by decide, by decide, by decide, by decide⟩

/-- C5 amended: when both levels are touched in one bar, a long position
resolves to TP iff close > open (else SL), and a short position resolves to
TP iff close < open (else SL) — so at close = open both directions resolve
to SL. -/
theorem c5_tie_resolution (position_side : PositionSide)
    (stop_loss take_profit : ℚ) (bar : Bar) (slPrice tpPrice : ℚ)
    (hs : check_stop_loss_hit position_side stop_loss bar = some slPrice)
    (ht : check_take_profit_hit position_side take_profit bar = some tpPrice) :
    (resolve_tp_sl_tie position_side stop_loss take_profit bar).1 =
      match position_side with
      | .long => if bar.open_ < bar.close then TieResult.tp else TieResult.sl
      | .short => if bar.close < bar.open_ then TieResult.tp else TieResult.sl := by
  unfold resolve_tp_sl_tie
  rw [hs, ht]
  cases position_side <;>
    simp only [gt_iff_lt] <;>
    split_ifs <;>
    rfl

/-- Bullish bar from the spec's scenario 4: open 99, high 106, low 95,
close 104, touching both a long position's stop (96) and target (105). -/
def barBullish : Bar :=
  mkBar ⟨0, 0⟩ "S" 104 (some 99) (some 106) (some 95) (some 104) none

/-- Witness for c5_tie_resolution at the spec's bullish-bar scenario. -/
theorem c5_tie_resolution_witness :
    check_stop_loss_hit PositionSide.long 96 barBullish = some 96 ∧
      check_take_profit_hit PositionSide.long 105 barBullish = some 105 ∧
      (resolve_tp_sl_tie PositionSide.long 96 105 barBullish).1 =
        match PositionSide.long with
        | .long => if barBullish.open_ < barBullish.close then TieResult.tp
                   else TieResult.sl
        | .short => if barBullish.close < barBullish.open_ then TieResult.tp
                    else TieResult.sl :=
  ⟨by decide, by decide,
    c5_tie_resolution PositionSide.long 96 105 barBullish 96 105
      (by decide) (by decide)⟩

/-- C6 counterexample: with the default configuration (max_position_pct =
0.20, min_position_size = 1, fraction sizing), equity 100 and price 50 give
floor(100 × 0.20 / 50) = 0, yet calculate_position_size returns 1, not 0,
because the code clamps below by min_position_size. -/
theorem c6_min_size_counterexample :
    rmDefault.calculate_position_size 50 100 none none = 1 ∧
      ⌊(100 : ℚ) * rmDefault.max_position_pct / 50⌋ = 0 ∧
      ((1 : ℤ) ≠ 0) := by
  refine ⟨?_, ?_, by decide⟩ <;>
    norm_num [RiskManager.calculate_position_size, RiskManager.size_by_fraction,
      pyInt, rmDefault]

/-- C6 amended: with fraction sizing and no explicit signal size, the
computed quantity is max(floor(portfolio_equity × max_position_pct /
price), min_position_size); the floor alone is returned only when it is at
least min_position_size, and a floor of 0 yields min_position_size (1 by
default), not 0. -/
theorem c6_fraction_sizing (rm : RiskManager) (price portfolio_value : ℚ)
    (volatility : Option ℚ) (hm : rm.sizing_method = "fraction")
    (hp : 0 < price) (hv : 0 < portfolio_value)
    (hpct : 0 ≤ rm.max_position_pct) :
    rm.calculate_position_size price portfolio_value none volatility =
      max ⌊portfolio_value * rm.max_position_pct / price⌋
        rm.min_position_size := by
  unfold RiskManager.calculate_position_size RiskManager.size_by_fraction
  rw [if_pos hm, if_neg]
  · unfold pyInt
    rw [if_pos]
    exact div_nonneg (mul_nonneg hv.le hpct) hp.le
  · push_neg
    exact ⟨hp, hv⟩

/-- Witness for c6_fraction_sizing at the default configuration. -/
theorem c6_fraction_sizing_witness :
    rmDefault.sizing_method = "fraction" ∧ (0 < (50 : ℚ)) ∧
      (0 < (100 : ℚ)) ∧ 0 ≤ rmDefault.max_position_pct ∧
      rmDefault.calculate_position_size 50 100 none none =
        max ⌊(100 : ℚ) * rmDefault.max_position_pct / 50⌋
          rmDefault.min_position_size :=
  ⟨rfl, by norm_num, by norm_num, by norm_num [rmDefault],
    c6_fraction_sizing rmDefault 50 100 none rfl (by norm_num) (by norm_num)
      (by norm_num [rmDefault])⟩

/-- Portfolio with no cash and no day tracking, for isolating the cash
effect of a single fill. -/
def pfEmpty : Portfolio := Portfolio.init 0 false false

/-- A SELL fill of 10 shares at 100 carrying a commission of 5. -/
def fillSell : Fill :=
  { fill_id := "F", order_id := "O", timestamp := ⟨0, 0⟩,
    symbol := "S", side := OrderSide.sell, quantity := 10, price := 100,
    commission := 5 }

/-- C1: applying the SELL fill 10 × 100 with commission 5 to a portfolio
with cash 0 leaves cash 1005 — the code adds `net_value = quantity × price
+ commission` on sells, crediting the commission instead of debiting it,
whereas the claim requires cash 10 × 100 − 5 = 995. -/
theorem c1_sell_commission_credited :
    ((pfEmpty.apply_fill fillSell none).1).cash = 1005 ∧
      ((1005 : ℚ) ≠ 10 * 100 - 5) := by
  constructor
  · norm_num [pfEmpty, fillSell, Portfolio.init, Portfolio.apply_fill,
      Portfolio.pre_fill_state, Portfolio.check_new_day, updateAssoc,
      updatePositions, Position.update_position, Fill.net_value,
      Fill.gross_value, calculate_pnl, Portfolio.get_total_value,
      Portfolio.square_off_all_positions, List.lookup]
  · norm_num

/-- Daywise portfolio with EOD square-off enabled and initial cash 100000. -/
def pfDaywise : Portfolio := Portfolio.init 100000 true true

/-- Day-0 fill: buy 10 at 100, zero commission. -/
def fillBuyDay0 : Fill :=
  { fill_id := "F1", order_id := "O1", timestamp := ⟨0, 0⟩,
    symbol := "SYM", side := OrderSide.buy, quantity := 10, price := 100,
    commission := 0 }

/-- Day-0 closing bar marking the symbol at 102. -/
def barMark102 : Bar := mkBar ⟨0, 1⟩ "SYM" 102 none none none none none

/-- Day-1 fill: buy 1 at 102, zero commission, crossing the day boundary. -/
def fillBuyDay1 : Fill :=
  { fill_id := "F2", order_id := "O2", timestamp := ⟨1, 0⟩,
    symbol := "SYM", side := OrderSide.buy, quantity := 1, price := 102,
    commission := 0 }

/-- Portfolio state at the end of day 0: long 10 from 100, marked at 102
(cash 99000, unrealized 20). -/
def pfDay0End : Portfolio :=
  ((pfDaywise.apply_fill fillBuyDay0 none).1).update_from_bar barMark102

/-- Portfolio state after the day-1 fill triggered the day boundary. -/
def pfDay1 : Portfolio := (pfDay0End.apply_fill fillBuyDay1 none).1

/-- C2 counterexample: in the claim's concrete scenario (long 10 from 100,
initial cash 100000, last mark 102, square_off_eod on), the day after the
boundary starts with daily_starting_value = previous_day_value = 99020 —
the end-of-day value cash + unrealized computed before the square-off —
not the 100020 the claim states. -/
theorem c2_day_boundary_counterexample :
    pfDay1.daily_starting_value = 99020 ∧
      pfDay1.previous_day_value = 99020 ∧
      ((99020 : ℚ) ≠ 100020) := by
  refine ⟨?_, ?_, by norm_num⟩ <;>
    norm_num [pfDay1, pfDay0End, pfDaywise, fillBuyDay0, fillBuyDay1,
      barMark102, mkBar, Portfolio.init, Portfolio.apply_fill,
      Portfolio.pre_fill_state, Portfolio.check_new_day,
      Portfolio.update_from_bar, updateAssoc, updatePositions,
      Position.update_position, Position.update_unrealized_pnl,
      Fill.net_value, Fill.gross_value, calculate_pnl,
      Portfolio.get_total_value, Portfolio.square_off_all_positions,
      List.lookup]

/-- C2 amended: in that scenario the day boundary squares off the position
at the cached mark 102 with no commission (realized +20, cash 100020,
position flat, daily_pnl reset, day advanced), but the new day's
daily_starting_value and previous_day_value are the pre-square-off
end-of-day value 99020 = cash 99000 + unrealized 20. -/
theorem c2_eod_square_off_amended :
    (pfDay0End.check_new_day ⟨1, 0⟩).2 = 20 ∧
      (pfDay0End.check_new_day ⟨1, 0⟩).1.realized_pnl = 20 ∧
      (pfDay0End.check_new_day ⟨1, 0⟩).1.cash = 100020 ∧
      ((pfDay0End.check_new_day ⟨1, 0⟩).1.positions.lookup "SYM").map
        Position.quantity = some 0 ∧
      pfDay0End.get_total_value = 99020 ∧
      (pfDay0End.check_new_day ⟨1, 0⟩).1.daily_starting_value = 99020 ∧
      (pfDay0End.check_new_day ⟨1, 0⟩).1.previous_day_value = 99020 ∧
      (pfDay0End.check_new_day ⟨1, 0⟩).1.daily_pnl = 0 ∧
      (pfDay0End.check_new_day ⟨1, 0⟩).1.current_day = some 1 := by
  refine ⟨?_, ?_, ?_, ?_, ?_, ?_, ?_, ?_, ?_⟩ <;>
    norm_num [pfDay0End, pfDaywise, fillBuyDay0, barMark102, mkBar,
      Portfolio.init, Portfolio.apply_fill, Portfolio.pre_fill_state,
      Portfolio.check_new_day, Portfolio.update_from_bar, updateAssoc,
      updatePositions, Position.update_position,
      Position.update_unrealized_pnl, Fill.net_value, Fill.gross_value,
      calculate_pnl, Portfolio.get_total_value,
      Portfolio.square_off_all_positions, List.lookup]

/-- C7: the realized P&L apply_fill writes back into a fill equals the
spec's formula evaluated against the position the fill is applied to (the
row present after the day check, a fresh flat row when the symbol was
absent): a closing portion realizes (price − avg_entry) × signed close
quantity, anything else realizes 0. -/
theorem c7_fill_realized_formula (p : Portfolio) (f : Fill) (cp : Option ℚ) :
    (p.apply_fill f cp).2.1 =
      realizedSpec (((p.pre_fill_state f cp).1.positions.lookup f.symbol).getD
        { symbol := f.symbol, quantity := 0, avg_price := 0 }) f := by
  unfold Portfolio.apply_fill realizedSpec
  dsimp only
  set pos := ((p.pre_fill_state f cp).1.positions.lookup f.symbol).getD
    { symbol := f.symbol, quantity := 0, avg_price := 0 } with hpos
  by_cases h0 : pos.quantity = 0
  · simp [h0]
  · by_cases hA : (0 < pos.quantity ∧ f.side = OrderSide.sell) ∨
        (pos.quantity < 0 ∧ f.side = OrderSide.buy)
    · rw [if_pos h0, if_pos hA, if_pos (And.intro h0 hA)]
      by_cases hq : 0 < pos.quantity
      · rw [if_pos hq, Int.sign_eq_one_iff_pos.mpr hq]
        unfold calculate_pnl
        push_cast
        ring
      · have hneg : pos.quantity < 0 := lt_of_le_of_ne (not_lt.mp hq) h0
        rw [if_neg hq, Int.sign_eq_neg_one_iff_neg.mpr hneg]
        unfold calculate_pnl
        push_cast
        ring
    · rw [if_pos h0, if_neg hA, if_neg (fun h => hA h.2)]

/-- Squaring off increases the cumulative realized P&L by exactly the
amount it reports as posted. -/
theorem square_off_realized_delta (p : Portfolio) (ts : DateTime) :
    (p.square_off_all_positions ts).1.realized_pnl =
      p.realized_pnl + (p.square_off_all_positions ts).2 := by
  unfold Portfolio.square_off_all_positions
  split_ifs with h
  · simp
  · rfl

/-- The day check increases the cumulative realized P&L by exactly the
square-off amount it reports. -/
theorem check_new_day_realized_delta (p : Portfolio) (ts : DateTime) :
    (p.check_new_day ts).1.realized_pnl =
      p.realized_pnl + (p.check_new_day ts).2 := by
  unfold Portfolio.check_new_day
  cases hc : p.current_day with
  | none => simp
  | some cd =>
    dsimp only
    split_ifs <;> simp [square_off_realized_delta]

/-- The pre-fill phase of apply_fill changes realized P&L only by the
square-off amount it reports. -/
theorem pre_fill_realized_delta (p : Portfolio) (f : Fill) (cp : Option ℚ) :
    (p.pre_fill_state f cp).1.realized_pnl =
      p.realized_pnl + (p.pre_fill_state f cp).2 := by
  unfold Portfolio.pre_fill_state
  dsimp only
  split_ifs with ht hpos hpos
  · rw [check_new_day_realized_delta]
  · rw [check_new_day_realized_delta]
  · simp
  · simp

/-- apply_fill increases the cumulative realized P&L by exactly the fill's
realized P&L plus the square-off amount posted by the day check. -/
theorem apply_fill_realized_delta (p : Portfolio) (f : Fill) (cp : Option ℚ) :
    (p.apply_fill f cp).1.realized_pnl =
      p.realized_pnl + (p.apply_fill f cp).2.1 + (p.apply_fill f cp).2.2 := by
  unfold Portfolio.apply_fill
  dsimp only
  cases hside : f.side <;> split_ifs <;>
    rw [pre_fill_realized_delta] <;> ring

/-- Marking to market from a bar never changes the realized P&L. -/
theorem update_from_bar_realized (p : Portfolio) (b : Bar) :
    (p.update_from_bar b).realized_pnl = p.realized_pnl := by
  unfold Portfolio.update_from_bar
  dsimp only
  cases hl : List.lookup b.symbol p.positions with
  | none => rfl
  | some pos =>
    dsimp only
    split_ifs <;> rfl

/-- Taking a snapshot never changes the realized P&L. -/
theorem create_snapshot_realized (p : Portfolio) (ts : DateTime) :
    (p.create_snapshot ts).1.realized_pnl = p.realized_pnl := rfl

/-- C8 amended: over any run, the cumulative realized P&L equals its
initial value plus the realized P&L written into the applied fills plus
the realized P&L posted directly by EOD square-offs, which generate no
fill records; the fill sum alone accounts for it exactly when no
square-off posts anything. -/
theorem c8_realized_decomposition (p : Portfolio) (evs : List PortfolioEvent) :
    (p.run evs).realized_pnl =
      p.realized_pnl + p.fillsRealized evs + p.squareOffPosted evs := by
  induction evs generalizing p with
  | nil =>
    simp [Portfolio.run, Portfolio.fillsRealized, Portfolio.squareOffPosted]
  | cons e es ih =>
    cases e with
    | fill f cp =>
      rw [show p.run (.fill f cp :: es) = ((p.apply_fill f cp).1).run es from rfl]
      rw [ih, apply_fill_realized_delta]
      rw [show p.fillsRealized (.fill f cp :: es) =
        (p.apply_fill f cp).2.1 + ((p.apply_fill f cp).1).fillsRealized es from rfl]
      rw [show p.squareOffPosted (.fill f cp :: es) =
        (p.apply_fill f cp).2.2 + ((p.apply_fill f cp).1).squareOffPosted es from rfl]
      ring
    | bar b =>
      rw [show p.run (.bar b :: es) = (p.update_from_bar b).run es from rfl]
      rw [ih, update_from_bar_realized]
      rw [show p.fillsRealized (.bar b :: es) =
        (p.update_from_bar b).fillsRealized es from rfl]
      rw [show p.squareOffPosted (.bar b :: es) =
        (p.update_from_bar b).squareOffPosted es from rfl]
    | snapshot ts =>
      rw [show p.run (.snapshot ts :: es) = ((p.create_snapshot ts).1).run es from rfl]
      rw [ih, create_snapshot_realized]
      rw [show p.fillsRealized (.snapshot ts :: es) =
        ((p.create_snapshot ts).1).fillsRealized es from rfl]
      rw [show p.squareOffPosted (.snapshot ts :: es) =
        ((p.create_snapshot ts).1).squareOffPosted es from rfl]

/-- The C2 scenario as an event run, ending in a snapshot after the
square-off day boundary. -/
def eventsSquareOff : List PortfolioEvent :=
  [.fill fillBuyDay0 none, .bar barMark102, .fill fillBuyDay1 none,
   .snapshot ⟨1, 0⟩]

/-- C8 counterexample: after an EOD square-off posts 20 of realized P&L
with no fill record, the final snapshot's cumulative realized P&L is 20
while the sum of realized P&L over all applied fills is 0. -/
theorem c8_square_off_counterexample :
    ((pfDaywise.run eventsSquareOff).snapshots.getLast?).map
        PortfolioSnapshot.realized_pnl = some 20 ∧
      pfDaywise.fillsRealized eventsSquareOff = 0 ∧
      ((20 : ℚ) ≠ 0) := by
  refine ⟨?_, ?_, by norm_num⟩ <;>
    norm_num [eventsSquareOff, pfDaywise, fillBuyDay0, fillBuyDay1,
      barMark102, mkBar, Portfolio.run, Portfolio.fillsRealized,
      Portfolio.init, Portfolio.apply_fill, Portfolio.pre_fill_state,
      Portfolio.check_new_day, Portfolio.update_from_bar,
      Portfolio.create_snapshot, updateAssoc, updatePositions,
      Position.update_position, Position.update_unrealized_pnl,
      Fill.net_value, Fill.gross_value, calculate_pnl,
      Portfolio.get_total_value, Portfolio.square_off_all_positions,
      List.lookup, List.getLast?]

end Backtester
